import Mathlib

/-!
Verification development for the movie-accuracy data pipeline.

The definitions below are a shallow embedding of the repository's Python
sources (`moviecalc.py`, `tmdbdata.py`, `importplots.py`):
pure functions become Lean functions, the SQLite store becomes explicit
record states, the per-row loops become folds, exceptions become `Except`,
and commit boundaries are tracked by carrying both a cursor-visible state
and a last-committed state.
-/

namespace MovieAccuracy

/-! ## String utilities

Python's `needle in haystack` substring test and `str.lower()`. -/

/-- Boolean substring test on character lists: Python `n in h`. -/
def isInfixChars (n : List Char) : List Char → Bool
  | [] => n.isEmpty
  | c :: t => n.isPrefixOf (c :: t) || isInfixChars n t

/-- Python `needle in hay` on strings. -/
def strContains (hay needle : String) : Bool :=
  isInfixChars needle.toList hay.toList

/-- Python `s.lower()`, character by character (all repository inputs are
ASCII, where `Char.toLower` agrees with Python). -/
def strLower (s : String) : String :=
  ⟨s.data.map Char.toLower⟩

/-- Python `any(word in hay for word in words)`. -/
def containsAny (hay : String) (words : List String) : Bool :=
  words.any (fun w => strContains hay w)

/-! ## Keyword classifier (`moviecalc.categorize_subject_from_overview`)

Each keyword list is copied verbatim from the corresponding branch of the
`if`/`elif` cascade at `moviecalc.py` lines 116-180. -/

def musicianKeywords : List String :=
  ["musician", "singer", "vocalist", "composer", "band member",
   "performs", "concert", "album", "rapper", "hip hop", "pianist", "piano",
   "musical family", "selena"]

def athleteKeywords : List String :=
  ["boxer", "boxing", "football", "basketball", "baseball",
   "olympic", "race car", "racing driver", "quarterback", "athlete",
   "coach", "sport", "mixed martial", "mma", "fighter"]

def scientistKeywords : List String :=
  ["scientist", "mathematician", "physicist", "professor",
   "researcher", "theory", "discover", "invention", "academic",
   "cryptanalyst", "oppenheimer", "turing", "atomic bomb",
   "enigma", "code", "cipher", "computation"]

def activistKeywords : List String :=
  ["activist", "civil rights", "protest", "movement",
   "rights", "equality", "discrimination", "segregation",
   "slavery", "slave", "freedom", "abolitionist", "black panthers",
   "free black man"]

def businessKeywords : List String :=
  ["entrepreneur", "ceo", "founder", "billionaire",
   "creates a company", "starts a business", "facebook", "zuckerberg",
   "businessman"]

def artistKeywords : List String :=
  ["artist", "painter", "writer", "author", "novel",
   "book", "paint", "artwork", "treasure hunt", "monuments men",
   "architect"]

def politicianKeywords : List String :=
  ["president", "prime minister", "governor", "senator",
   "politician", "election", "campaign", "congress", "parliament",
   "fbi agent", "deep throat", "watergate"]

def criminalKeywords : List String :=
  ["gangster", "mob boss", "mafia", "drug lord", "cartel",
   "heist", "robbery", "outlaw", "infiltrates"]

def entertainerKeywords : List String :=
  ["actor", "actress", "director", "film producer",
   "hollywood", "performance", "stage"]

/-- The `any(...)` part of the Military branch (`moviecalc.py` lines 170-172);
the bare "military"/"mixed martial" guard of line 173 is separate. -/
def militaryCoreKeywords : List String :=
  ["soldier", "general", "navy", "marine", "combat",
   "colonel", "sergeant", "veteran", "squadron", "medic",
   "prisoner of war", "wwii", "world war"]

def eventTitleKeywords : List String :=
  ["disaster", "attack", "operation", "mission", "incident"]

def pronounKeywords : List String :=
  ["he ", "she ", "his ", "her ", "him "]

/-- Python `any(person_word in overview_lower[:500] for ...)`
(`moviecalc.py` line 179). -/
def hasPronoun (s : String) : Bool :=
  pronounKeywords.any (fun w => isInfixChars w.toList (s.toList.take 500))

def musiciansCond (ol : String) : Bool := containsAny ol musicianKeywords
def athletesCond (ol : String) : Bool := containsAny ol athleteKeywords
def scientistsCond (ol : String) : Bool := containsAny ol scientistKeywords
def activistsCond (ol : String) : Bool := containsAny ol activistKeywords
def businessCond (ol : String) : Bool := containsAny ol businessKeywords
def artistsCond (ol : String) : Bool := containsAny ol artistKeywords
def politiciansCond (ol : String) : Bool := containsAny ol politicianKeywords
def criminalsCond (ol : String) : Bool := containsAny ol criminalKeywords
def entertainersCond (ol : String) : Bool := containsAny ol entertainerKeywords

/-- Military branch condition, `moviecalc.py` lines 170-173:
`any(word in overview_lower for word in [...]) or
('military' in overview_lower and 'mixed martial' not in overview_lower)`. -/
def militaryCond (ol : String) : Bool :=
  containsAny ol militaryCoreKeywords ||
    (strContains ol "military" && !strContains ol "mixed martial")

/-- Historical Events branch condition, `moviecalc.py` lines 177-179:
title keywords, OR (war/history genre AND no pronoun in the first 500
characters of the overview). -/
def histEventsCond (tl ol gl : String) : Bool :=
  containsAny tl eventTitleKeywords ||
    ((strContains gl "war" || strContains gl "history") && !hasPronoun ol)

/-- Python `genres_lower = genre_names.lower() if genre_names else ""`
(`moviecalc.py` line 109): both `None` and `""` are falsy. -/
def glower : Option String → String
  | none => ""
  | some s => if s = "" then "" else strLower s

/-- The three lower-cased locals the cascade inspects
(`title_lower`, `overview_lower`, `genres_lower`). -/
structure ClassIn where
  tl : String
  ol : String
  gl : String

/-- Lower-cased inputs as `moviecalc.py` lines 107-109 compute them. -/
def lowerIn (title ov : String) (g : Option String) : ClassIn :=
  ⟨strLower title, strLower ov, glower g⟩

/-- The `if`/`elif` cascade of `moviecalc.py` lines 116-180 on the
lower-cased locals, with its fall-through value `"Other"`. -/
def catRun (x : ClassIn) : String :=
  if musiciansCond x.ol then "Musicians"
  else if athletesCond x.ol then "Athletes"
  else if scientistsCond x.ol then "Scientists"
  else if activistsCond x.ol then "Activists"
  else if businessCond x.ol then "Businesspeople"
  else if artistsCond x.ol then "Artists & Writers"
  else if politiciansCond x.ol then "Politicians"
  else if criminalsCond x.ol then "Criminals"
  else if entertainersCond x.ol then "Entertainers"
  else if militaryCond x.ol then "Military"
  else if histEventsCond x.tl x.ol x.gl then "Historical Events"
  else "Other"

/-- `moviecalc.categorize_subject_from_overview(title, overview, genre_names)`
(lines 86-182).  `overview` is `None` or `""` ⇒ `"Other"` (lines 103-104);
otherwise the inputs are lower-cased and the first matching branch of the
`if`/`elif` cascade wins. -/
def categorize_subject_from_overview
    (title : String) (overview : Option String) (genre_names : Option String) : String :=
  match overview with
  | none => "Other"
  | some ov =>
    if ov = "" then "Other"
    else catRun (lowerIn title ov genre_names)

/-! ### Rule-list view of the cascade

The same eleven branches as an ordered association list, used to state the
first-match-wins priority property. -/

/-- The cascade's branches, in source order. -/
def classifierRules : List (String × (ClassIn → Bool)) :=
  [("Musicians", fun i => musiciansCond i.ol),
   ("Athletes", fun i => athletesCond i.ol),
   ("Scientists", fun i => scientistsCond i.ol),
   ("Activists", fun i => activistsCond i.ol),
   ("Businesspeople", fun i => businessCond i.ol),
   ("Artists & Writers", fun i => artistsCond i.ol),
   ("Politicians", fun i => politiciansCond i.ol),
   ("Criminals", fun i => criminalsCond i.ol),
   ("Entertainers", fun i => entertainersCond i.ol),
   ("Military", fun i => militaryCond i.ol),
   ("Historical Events", fun i => histEventsCond i.tl i.ol i.gl)]

/-- First-match evaluation of an ordered rule list with a default label. -/
def firstMatch : List (String × (ClassIn → Bool)) → ClassIn → String → String
  | [], _, d => d
  | (c, p) :: rest, x, d => if p x then c else firstMatch rest x d

/-! ## Persistent store model

Rows of the SQLite tables.  `id INTEGER PRIMARY KEY AUTOINCREMENT` columns
of insert-only tables are modelled as `length + 1` at insertion time. -/

/-- A row of the `Movies` table (the columns the enrichment stages touch). -/
structure Movie where
  id : Nat
  title : String
  tmdb_id : Option Nat
  revenue : Int
  overview : Option String
deriving DecidableEq

/-- A dimension-table row: (id, unique value). -/
abbrev DimRow := Nat × String

/-- `SELECT id FROM <table> WHERE <value column> = ?` then `fetchone`. -/
def dimFind (rows : List DimRow) (v : String) : Option Nat :=
  (rows.find? (fun r => r.2 == v)).map (fun r => r.1)

/-- `INSERT INTO <table> (<value column>) VALUES (?)`; the new id is
`lastrowid`. -/
def dimInsert (rows : List DimRow) (v : String) : List DimRow :=
  rows ++ [(rows.length + 1, v)]

/-- SQL `INSERT OR IGNORE` into a junction table whose UNIQUE constraint
covers the whole inserted pair. -/
def insertOrIgnorePair (l : List (Nat × Nat)) (p : Nat × Nat) : List (Nat × Nat) :=
  if p ∈ l then l else l ++ [p]

/-! ## Metadata enrichment stage (`tmdbdata.py`) -/

/-- The fields of a TMDB details response that `populate_tmdb_data` reads
(with `details.get('revenue', 0)` defaulting already applied). -/
structure TmdbDetails where
  tid : Nat
  revenue : Int
  overview : Option String
  genres : List String
  release_date : Option String
deriving DecidableEq

/-- Outcome of `tmdb_search_movie` + `tmdb_get_movie_details` for one title:
a best match with its details, an empty result list (`None`), or a raised
exception (`requests.get`/`.json()` failure — the code has no handler). -/
inductive TmdbResult where
  | found : TmdbDetails → TmdbResult
  | notFound : TmdbResult
  | transportError : TmdbResult
deriving DecidableEq

structure TmdbDB where
  movies : List Movie
  genres : List DimRow
  movieGenres : List (Nat × Nat)
  releaseDates : List DimRow
  movieReleaseDates : List (Nat × Nat)
deriving DecidableEq

/-- Connection state: the cursor-visible database plus the last committed
snapshot, and the `processed` counter of `populate_tmdb_data`. -/
structure TmdbState where
  cur : TmdbDB
  committed : TmdbDB
  processed : Nat
deriving DecidableEq

/-- `conn.commit()`. -/
def tmdbCommit (s : TmdbState) : TmdbState := { s with committed := s.cur }

/-- `tmdbdata.insert_or_get_genre` (lines 135-164): select by name, else
insert and commit, returning `lastrowid`. -/
def insert_or_get_genre (s : TmdbState) (name : String) : TmdbState × Nat :=
  match dimFind s.cur.genres name with
  | some gid => (s, gid)
  | none =>
    let s1 := { s with cur := { s.cur with genres := dimInsert s.cur.genres name } }
    (tmdbCommit s1, s.cur.genres.length + 1)

/-- `tmdbdata.insert_or_get_release_date` (lines 167-196). -/
def insert_or_get_release_date (s : TmdbState) (date : String) : TmdbState × Nat :=
  match dimFind s.cur.releaseDates date with
  | some did => (s, did)
  | none =>
    let s1 := { s with cur := { s.cur with releaseDates := dimInsert s.cur.releaseDates date } }
    (tmdbCommit s1, s.cur.releaseDates.length + 1)

/-- `SELECT id, title FROM Movies WHERE tmdb_id IS NULL LIMIT ?`
(`tmdbdata.py` lines 215-220), in rowid (list) order. -/
def tmdbSelect (db : TmdbDB) (limit : Nat) : List Movie :=
  (db.movies.filter (fun m => m.tmdb_id.isNone)).take limit

/-- `UPDATE Movies SET tmdb_id = ?, revenue = ?, overview = ? WHERE id = ?`
(`tmdbdata.py` lines 248-259). -/
def updateMovie (movies : List Movie) (mid tid : Nat) (rev : Int) (ov : Option String) :
    List Movie :=
  movies.map (fun m =>
    if m.id = mid then { m with tmdb_id := some tid, revenue := rev, overview := ov } else m)

/-- One genre of the details: get-or-create the genre row, then
`INSERT OR IGNORE` the junction link (`tmdbdata.py` lines 263-272). -/
def addGenre (mid : Nat) (s : TmdbState) (gname : String) : TmdbState :=
  let sg := insert_or_get_genre s gname
  { sg.1 with cur :=
      { sg.1.cur with movieGenres := insertOrIgnorePair sg.1.cur.movieGenres (mid, sg.2) } }

def addGenres (s : TmdbState) (mid : Nat) (gs : List String) : TmdbState :=
  gs.foldl (addGenre mid) s

/-- `if release_date:` then get-or-create plus junction link
(`tmdbdata.py` lines 275-284); `None` and `""` are falsy. -/
def addReleaseDate (s : TmdbState) (mid : Nat) (rd : Option String) : TmdbState :=
  match rd with
  | none => s
  | some d =>
    if d = "" then s
    else
      let sd := insert_or_get_release_date s d
      { sd.1 with cur :=
          { sd.1.cur with
              movieReleaseDates := insertOrIgnorePair sd.1.cur.movieReleaseDates (mid, sd.2) } }

/-- One iteration of the `populate_tmdb_data` loop (lines 231-288).
A transport failure raises out of the loop (`Except.error` carries the
state at the raise); a not-found search result is `continue` with no
database write; a found result updates the movie, adds genre and release
date rows, commits, and increments `processed`. -/
def tmdbProcessOne (resolver : String → TmdbResult) (s : TmdbState) (m : Movie) :
    Except TmdbState TmdbState :=
  match resolver m.title with
  | .transportError => .error s
  | .notFound => .ok s
  | .found d =>
    let s1 := { s with cur :=
        { s.cur with movies := updateMovie s.cur.movies m.id d.tid d.revenue d.overview } }
    let s2 := addGenres s1 m.id d.genres
    let s3 := addReleaseDate s2 m.id d.release_date
    let s4 := tmdbCommit s3
    .ok { s4 with processed := s4.processed + 1 }

def tmdbLoop (resolver : String → TmdbResult) :
    TmdbState → List Movie → Except TmdbState TmdbState
  | s, [] => .ok s
  | s, m :: ms =>
    match tmdbProcessOne resolver s m with
    | .error e => .error e
    | .ok s' => tmdbLoop resolver s' ms

/-- A non-raising view of one loop iteration, used to relate the loop to a
fold when no title resolves to a transport error. -/
def tmdbStepOk (resolver : String → TmdbResult) (s : TmdbState) (m : Movie) : TmdbState :=
  match tmdbProcessOne resolver s m with
  | .ok s' => s'
  | .error _ => s

/-- `tmdbdata.populate_tmdb_data(cur, conn, limit)` (lines 199-312).
The second component is the Python return value: the function has no
`return <value>` statement on any path, so it is always `None`. -/
def populate_tmdb_data (resolver : String → TmdbResult) (db : TmdbDB) (limit : Nat) :
    Except TmdbState (TmdbState × Option Nat) :=
  match tmdbLoop resolver ⟨db, db, 0⟩ (tmdbSelect db limit) with
  | .error e => .error e
  | .ok s => .ok (s, none)

/-! ## Plot enrichment stage (`importplots.py`) -/

/-- A row of the `Plots` table (`movie_id INTEGER UNIQUE`,
`plot_summary TEXT`). -/
structure PlotRow where
  movie_id : Nat
  plot_summary : Option String
deriving DecidableEq

structure PlotsDB where
  movies : List Movie
  plots : List PlotRow
deriving DecidableEq

structure PlotsState where
  cur : PlotsDB
  committed : PlotsDB
  successful : Nat
deriving DecidableEq

/-- Outcome of the Wikipedia lookup for one title, at the boundary the
stage observes: a plot text, no plot found, or a raised exception. -/
inductive FetchOutcome where
  | found : String → FetchOutcome
  | notFound : FetchOutcome
  | transportError : FetchOutcome
deriving DecidableEq

/-- `importplots.get_wikipedia_plot` at its outcome boundary: every
exception is caught by the `try`/`except` of lines 113/187-189 and turned
into `None`, exactly like a not-found page. -/
def get_wikipedia_plot (fetch : String → FetchOutcome) (title : String) : Option String :=
  match fetch title with
  | .found p => some p
  | .notFound => none
  | .transportError => none

/-- `WHERE id NOT IN (SELECT movie_id FROM Plots WHERE plot_summary IS NOT
NULL)` (`importplots.py` lines 207-212): a movie is unprocessed unless it
has a row with a non-NULL summary — NULL-marker rows are selected again. -/
def plotsPred (db : PlotsDB) (m : Movie) : Bool :=
  !(db.plots.any (fun r => r.movie_id == m.id && r.plot_summary.isSome))

def plotsSelect (db : PlotsDB) (limit : Nat) : List Movie :=
  (db.movies.filter (plotsPred db)).take limit

/-- `INSERT OR REPLACE INTO Plots (movie_id, plot_summary) VALUES (?, ?)`:
the UNIQUE `movie_id` conflict row is deleted and the new row inserted. -/
def upsertPlot (db : PlotsDB) (mid : Nat) (p : Option String) : PlotsDB :=
  { db with plots := db.plots.filter (fun r => !(r.movie_id == mid)) ++ [⟨mid, p⟩] }

/-- One iteration of the `populate_plots_table` loop (lines 223-239):
`if plot:` stores the text and counts it successful, otherwise stores an
explicit NULL marker.  No commit inside the loop. -/
def plotsProcessOne (fetch : String → FetchOutcome) (s : PlotsState) (m : Movie) :
    PlotsState :=
  match get_wikipedia_plot fetch m.title with
  | some p =>
    if p = "" then { s with cur := upsertPlot s.cur m.id none }
    else { s with cur := upsertPlot s.cur m.id (some p), successful := s.successful + 1 }
  | none => { s with cur := upsertPlot s.cur m.id none }

/-- `importplots.populate_plots_table(cur, conn, limit)` (lines 192-249):
select, loop, then one `conn.commit()` after the loop; the Python return
value is always `None`. -/
def populate_plots_table (fetch : String → FetchOutcome) (db : PlotsDB) (limit : Nat) :
    PlotsState × Option Nat :=
  let sel := plotsSelect db limit
  if sel.isEmpty then (⟨db, db, 0⟩, none)
  else
    let s := sel.foldl (plotsProcessOne fetch) ⟨db, db, 0⟩
    ({ s with committed := s.cur }, none)

/-! ## Categorization stage (`moviecalc.py`) -/

structure CalcDB where
  movies : List Movie
  genres : List DimRow
  movieGenres : List (Nat × Nat)
  categories : List DimRow
  movieCategories : List (Nat × Nat)
deriving DecidableEq

structure CalcState where
  cur : CalcDB
  committed : CalcDB
deriving DecidableEq

/-- `GROUP_CONCAT(g.name, ', ')` over the LEFT JOIN of `MovieGenres` and
`Genres` for one movie; no joined rows gives SQL NULL. -/
def genreNamesFor (db : CalcDB) (mid : Nat) : Option String :=
  let ns := (db.movieGenres.filter (fun p => p.1 == mid)).filterMap
      (fun p => (db.genres.find? (fun g => g.1 == p.2)).map (fun g => g.2))
  match ns with
  | [] => none
  | _ :: _ => some (String.intercalate ", " ns)

/-- One row of the selection query of `populate_movie_categories`
(lines 201-214). -/
structure CalcRow where
  movie_id : Nat
  title : String
  overview : Option String
  genre_names : Option String
deriving DecidableEq

/-- `WHERE m.id NOT IN (SELECT DISTINCT movie_id FROM MovieCategories)
AND m.overview IS NOT NULL`. -/
def calcPred (db : CalcDB) (m : Movie) : Bool :=
  m.overview.isSome && !(db.movieCategories.any (fun p => p.1 == m.id))

def calcSelect (db : CalcDB) (limit : Nat) : List CalcRow :=
  ((db.movies.filter (calcPred db)).map
      (fun m => CalcRow.mk m.id m.title m.overview (genreNamesFor db m.id))).take limit

/-- `moviecalc.insert_or_get_category` (lines 55-83): select by name, else
insert and commit, returning `lastrowid`. -/
def insert_or_get_category (s : CalcState) (name : String) : CalcState × Nat :=
  match dimFind s.cur.categories name with
  | some cid => (s, cid)
  | none =>
    let cur1 := { s.cur with categories := dimInsert s.cur.categories name }
    (⟨cur1, cur1⟩, s.cur.categories.length + 1)

/-- One iteration of the `populate_movie_categories` loop (lines 224-238):
categorize, get-or-create the category row, `INSERT OR IGNORE` the junction
link.  No commit in the loop body itself (only inside
`insert_or_get_category` when a new category row is created). -/
def calcProcessOne (s : CalcState) (r : CalcRow) : CalcState :=
  let cat := categorize_subject_from_overview r.title r.overview r.genre_names
  let sc := insert_or_get_category s cat
  ⟨{ sc.1.cur with
      movieCategories := insertOrIgnorePair sc.1.cur.movieCategories (r.movie_id, sc.2) },
   sc.1.committed⟩

/-- `moviecalc.populate_movie_categories(cur, conn, limit)` (lines 185-252):
select, loop, then one `conn.commit()` after the loop; the Python return
value is always `None`. -/
def populate_movie_categories (db : CalcDB) (limit : Nat) : CalcState × Option Nat :=
  let sel := calcSelect db limit
  if sel.isEmpty then (⟨db, db⟩, none)
  else
    let s := sel.foldl calcProcessOne ⟨db, db⟩
    (⟨s.cur, s.cur⟩, none)

/-! ## Concrete stores and resolvers for the counterexamples and witnesses -/

def mkMovie (i : Nat) : Movie := ⟨i, "m" ++ toString i, none, 0, none⟩

/-- A store with 40 unprocessed movies. -/
def db40 : TmdbDB := ⟨(List.range 40).map (fun i => mkMovie (i + 1)), [], [], [], []⟩

def detailsD : TmdbDetails := ⟨7, 1000, some "a story", ["Drama"], some "2020-01-01"⟩

/-- Every search succeeds. -/
def allFound : String → TmdbResult := fun _ => .found detailsD

/-- The search for the first movie returns an empty result list. -/
def oneMissing : String → TmdbResult := fun t => if t = "m1" then .notFound else .found detailsD

def firstRun40 : TmdbState :=
  match populate_tmdb_data allFound db40 25 with
  | .ok sr => sr.1
  | .error s => s

def secondRun40 : TmdbState :=
  match populate_tmdb_data allFound firstRun40.cur 25 with
  | .ok sr => sr.1
  | .error s => s

def firstRun40Ret : Option Nat :=
  match populate_tmdb_data allFound db40 25 with
  | .ok sr => sr.2
  | .error _ => some 0

def missRun40 : TmdbState :=
  match populate_tmdb_data oneMissing db40 25 with
  | .ok sr => sr.1
  | .error s => s

/-- Two unprocessed movies. -/
def dbTwo : TmdbDB := ⟨[⟨1, "ta", none, 0, none⟩, ⟨2, "tb", none, 0, none⟩], [], [], [], []⟩

/-- The first title's external call raises; the second would succeed. -/
def errFirst : String → TmdbResult := fun t => if t = "ta" then .transportError else .found detailsD

def errTwoState : TmdbState :=
  match populate_tmdb_data errFirst dbTwo 25 with
  | .ok sr => sr.1
  | .error s => s

/-- Whether the run raised out of the batch loop. -/
def errTwoRaised : Bool :=
  match populate_tmdb_data errFirst dbTwo 25 with
  | .ok _ => false
  | .error _ => true

/-- One unprocessed movie, for the not-found reselection counterexamples. -/
def dbSolo : TmdbDB := ⟨[⟨1, "solo", none, 0, none⟩], [], [], [], []⟩

def dbZeta : TmdbDB := ⟨[⟨5, "zeta", none, 0, none⟩], [], [], [], []⟩

def neverFound : String → TmdbResult := fun _ => .notFound

def soloRun : TmdbState :=
  match populate_tmdb_data neverFound dbSolo 25 with
  | .ok sr => sr.1
  | .error s => s

def zetaRun : TmdbState :=
  match populate_tmdb_data neverFound dbZeta 25 with
  | .ok sr => sr.1
  | .error s => s

/-- Two categorizable movies whose category ("Other") already exists in the
`Categories` table, so the loop never commits. -/
def calcDbTwo : CalcDB :=
  ⟨[⟨1, "a", some 9, 0, some "xyz"⟩, ⟨2, "b", some 9, 0, some "xyz"⟩],
   [], [], [(1, "Other")], []⟩

/-- The categorization loop interrupted after the first of two entities. -/
def calcInterrupted : CalcState :=
  ((calcSelect calcDbTwo 25).take 1).foldl calcProcessOne ⟨calcDbTwo, calcDbTwo⟩

/-- The connection state a run of `populate_tmdb_data` ends in (for a
raising run, the state at the raise). -/
def tmdbRunState (resolver : String → TmdbResult) (db : TmdbDB) (limit : Nat) : TmdbState :=
  match populate_tmdb_data resolver db limit with
  | .ok sr => sr.1
  | .error s => s

/-- One unprocessed movie for the plot-stage witnesses. -/
def plotsDbW : PlotsDB := ⟨[⟨3, "w", none, 0, none⟩], []⟩

def fetchNone : String → FetchOutcome := fun _ => .notFound

def fetchErr : String → FetchOutcome := fun _ => .transportError

/-! ## Helper lemmas: the classifier cascade -/

theorem catRun_eq_firstMatch (x : ClassIn) :
    catRun x = firstMatch classifierRules x "Other" := rfl

theorem categorize_eq_catRun (title ov : String) (g : Option String) (h : ov ≠ "") :
    categorize_subject_from_overview title (some ov) g = catRun (lowerIn title ov g) := by
  show (if ov = "" then "Other" else catRun (lowerIn title ov g)) = catRun (lowerIn title ov g)
  rw [if_neg h]

theorem firstMatch_wins :
    ∀ (rs : List (String × (ClassIn → Bool))) (x : ClassIn) (d : String) (i : Nat)
      (hi : i < rs.length),
      (rs.get ⟨i, hi⟩).2 x = true →
      (∀ j (hj : j < i), (rs.get ⟨j, Nat.lt_trans hj hi⟩).2 x = false) →
      firstMatch rs x d = (rs.get ⟨i, hi⟩).1 := by
  intro rs
  induction rs with
  | nil => intro x d i hi; exact absurd hi (Nat.not_lt_zero i)
  | cons r rest ih =>
    obtain ⟨c, p⟩ := r
    intro x d i hi hmatch hearlier
    cases i with
    | zero =>
      have hm : p x = true := hmatch
      show (if p x then c else firstMatch rest x d) = c
      simp only [hm, if_true]
    | succ n =>
      have h0 : p x = false := hearlier 0 (Nat.succ_pos n)
      have hm : (rest.get ⟨n, Nat.lt_of_succ_lt_succ hi⟩).2 x = true := hmatch
      show (if p x then c else firstMatch rest x d)
          = (rest.get ⟨n, Nat.lt_of_succ_lt_succ hi⟩).1
      rw [h0]
      simp only [Bool.false_eq_true, if_false]
      exact ih x d n (Nat.lt_of_succ_lt_succ hi) hm
        (fun j hj => hearlier (j + 1) (Nat.succ_lt_succ hj))

theorem firstMatch_matched :
    ∀ (rs : List (String × (ClassIn → Bool))) (x : ClassIn) (d lab : String),
      firstMatch rs x d = lab →
      lab = d ∨ ∃ i, ∃ hi : i < rs.length,
        (rs.get ⟨i, hi⟩).1 = lab ∧ (rs.get ⟨i, hi⟩).2 x = true := by
  intro rs
  induction rs with
  | nil => intro x d lab h; exact Or.inl h.symm
  | cons r rest ih =>
    obtain ⟨c, p⟩ := r
    intro x d lab h
    have h' : (if p x then c else firstMatch rest x d) = lab := h
    by_cases hp : p x = true
    · rw [hp] at h'
      simp only [if_true] at h'
      exact Or.inr ⟨0, Nat.succ_pos rest.length, h', hp⟩
    · rw [Bool.not_eq_true] at hp
      rw [hp] at h'
      simp only [Bool.false_eq_true, if_false] at h'
      rcases ih x d lab h' with hd | ⟨i, hi, hl, hc⟩
      · exact Or.inl hd
      · exact Or.inr ⟨i + 1, Nat.succ_lt_succ hi, hl, hc⟩

theorem categorize_priority_general :
    ∀ (title ov : String) (g : Option String) (i : Nat) (hi : i < classifierRules.length),
      ov ≠ "" →
      (classifierRules.get ⟨i, hi⟩).2 (lowerIn title ov g) = true →
      (∀ j (hj : j < i),
        (classifierRules.get ⟨j, Nat.lt_trans hj hi⟩).2 (lowerIn title ov g) = false) →
      categorize_subject_from_overview title (some ov) g = (classifierRules.get ⟨i, hi⟩).1 := by
  intro title ov g i hi hov hmatch hearlier
  rw [categorize_eq_catRun title ov g hov, catRun_eq_firstMatch]
  exact firstMatch_wins classifierRules (lowerIn title ov g) "Other" i hi hmatch hearlier

theorem categorize_professor_beats_soldier :
    ∀ (title ov : String) (g : Option String),
      strContains (strLower ov) "professor" = true →
      strContains (strLower ov) "soldier" = true →
      musiciansCond (strLower ov) = false →
      athletesCond (strLower ov) = false →
      categorize_subject_from_overview title (some ov) g = "Scientists" := by
  intro title ov g hprof hsold hmus hath
  have hov : ov ≠ "" := by
    intro h
    subst h
    exact absurd hprof (by decide)
  apply categorize_priority_general title ov g 2 (by decide) hov
  · show scientistsCond (strLower ov) = true
    unfold scientistsCond containsAny
    exact List.any_eq_true.mpr ⟨"professor", by decide, hprof⟩
  · intro j hj
    cases j with
    | zero => exact hmus
    | succ j' =>
      cases j' with
      | zero => exact hath
      | succ j'' => exact absurd hj (by omega)

theorem categorize_pronoun_blocks_histEvents :
    ∀ (title ov : String) (g : Option String),
      containsAny (strLower title) eventTitleKeywords = false →
      hasPronoun (strLower ov) = true →
      categorize_subject_from_overview title (some ov) g ≠ "Historical Events" := by
  intro title ov g hT hP hEq
  by_cases hov : ov = ""
  · subst hov
    have h0 : categorize_subject_from_overview title (some "") g = "Other" := rfl
    rw [h0] at hEq
    exact absurd hEq (by decide)
  · rw [categorize_eq_catRun title ov g hov, catRun_eq_firstMatch] at hEq
    rcases firstMatch_matched classifierRules (lowerIn title ov g) "Other" _ hEq with
      hd | ⟨i, hi, hl, hc⟩
    · exact absurd hd (by decide)
    · have hi11 : i < 11 := hi
      interval_cases i
      · exact absurd (show ("Musicians" : String) = "Historical Events" from hl) (by decide)
      · exact absurd (show ("Athletes" : String) = "Historical Events" from hl) (by decide)
      · exact absurd (show ("Scientists" : String) = "Historical Events" from hl) (by decide)
      · exact absurd (show ("Activists" : String) = "Historical Events" from hl) (by decide)
      · exact absurd (show ("Businesspeople" : String) = "Historical Events" from hl) (by decide)
      · exact absurd (show ("Artists & Writers" : String) = "Historical Events" from hl) (by decide)
      · exact absurd (show ("Politicians" : String) = "Historical Events" from hl) (by decide)
      · exact absurd (show ("Criminals" : String) = "Historical Events" from hl) (by decide)
      · exact absurd (show ("Entertainers" : String) = "Historical Events" from hl) (by decide)
      · exact absurd (show ("Military" : String) = "Historical Events" from hl) (by decide)
      · have hc' : histEventsCond (strLower title) (strLower ov) (glower g) = true := hc
        rw [histEventsCond, hT, hP] at hc'
        simp at hc'

/-- C10: the Military rule's bare "military" keyword is guarded by a
"mixed martial" exclusion — for every overview containing both "military"
and "mixed martial" and none of the other Military keywords, the
classifier does not assign Military.  (The hypothesis "matched no earlier
rule" of the claim is dropped: "mixed martial" is itself an Athletes
keyword, so such an overview always matches the earlier Athletes or
Musicians rule; the theorem holds without that conjunct, which would be
unsatisfiable.) -/
theorem c10_military_mixed_martial_guard :
    ∀ (title ov : String) (g : Option String),
      strContains (strLower ov) "military" = true →
      strContains (strLower ov) "mixed martial" = true →
      containsAny (strLower ov) militaryCoreKeywords = false →
      categorize_subject_from_overview title (some ov) g ≠ "Military" := by
  intro title ov g hmil hmma hcore hEq
  have hov : ov ≠ "" := by
    intro h
    subst h
    exact absurd hmil (by decide)
  have hath : athletesCond (strLower ov) = true := by
    unfold athletesCond containsAny
    exact List.any_eq_true.mpr ⟨"mixed martial", by decide, hmma⟩
  rw [categorize_eq_catRun title ov g hov] at hEq
  have h' : (if musiciansCond (strLower ov) then "Musicians"
      else if athletesCond (strLower ov) then "Athletes"
      else if scientistsCond (strLower ov) then "Scientists"
      else if activistsCond (strLower ov) then "Activists"
      else if businessCond (strLower ov) then "Businesspeople"
      else if artistsCond (strLower ov) then "Artists & Writers"
      else if politiciansCond (strLower ov) then "Politicians"
      else if criminalsCond (strLower ov) then "Criminals"
      else if entertainersCond (strLower ov) then "Entertainers"
      else if militaryCond (strLower ov) then "Military"
      else if histEventsCond (strLower title) (strLower ov) (glower g) then "Historical Events"
      else "Other") = "Military" := hEq
  by_cases hm : musiciansCond (strLower ov) = true
  · rw [hm] at h'
    simp only [if_true] at h'
    exact absurd h' (by decide)
  · rw [Bool.not_eq_true] at hm
    rw [hm, hath] at h'
    simp only [Bool.false_eq_true, if_false, if_true] at h'
    exact absurd h' (by decide)

theorem c10_military_mixed_martial_guard_witness :
    categorize_subject_from_overview "t" (some "military and mixed martial") none ≠ "Military" :=
  c10_military_mixed_martial_guard "t" "military and mixed martial" none
    (by decide) (by decide) (by decide)

/-- C6 counterexample: with an absent or empty overview the classifier
returns `"Other"`, not the `Unknown` the claim states. -/
theorem c6_empty_overview_not_unknown :
    categorize_subject_from_overview "t" (some "") none ≠ "Unknown" ∧
    categorize_subject_from_overview "t" none none ≠ "Unknown" :=
  ⟨by decide, by decide⟩

/-- C6 (amended): for every title and tag list, if the overview argument
is absent or empty, the classifier returns the category `"Other"`. -/
theorem c6_empty_overview_other :
    ∀ (title : String) (g : Option String),
      categorize_subject_from_overview title none g = "Other" ∧
      categorize_subject_from_overview title (some "") g = "Other" :=
  fun _ _ => ⟨rfl, rfl⟩

/-- C7: the classifier evaluates its rules in a fixed priority order with
first-match-wins short-circuiting — whenever rule `i` of the ordered rule
list matches and every earlier rule fails, the result is rule `i`'s label
(so of two matching rules, the earlier wins) — and in particular any
overview containing both "professor" and "soldier" with no keyword of a
still-earlier rule (Musicians, Athletes) classifies as Scientists, not
Military. -/
theorem c7_priority_first_match_wins :
    (∀ (title ov : String) (g : Option String) (i : Nat) (hi : i < classifierRules.length),
        ov ≠ "" →
        (classifierRules.get ⟨i, hi⟩).2 (lowerIn title ov g) = true →
        (∀ j (hj : j < i),
          (classifierRules.get ⟨j, Nat.lt_trans hj hi⟩).2 (lowerIn title ov g) = false) →
        categorize_subject_from_overview title (some ov) g = (classifierRules.get ⟨i, hi⟩).1)
    ∧ (∀ (title ov : String) (g : Option String),
        strContains (strLower ov) "professor" = true →
        strContains (strLower ov) "soldier" = true →
        musiciansCond (strLower ov) = false →
        athletesCond (strLower ov) = false →
        categorize_subject_from_overview title (some ov) g = "Scientists") :=
  ⟨categorize_priority_general, categorize_professor_beats_soldier⟩

theorem c7_priority_first_match_wins_witness :
    categorize_subject_from_overview "t" (some "a professor and a soldier") none = "Scientists" :=
  c7_priority_first_match_wins.2 "t" "a professor and a soldier" none
    (by decide) (by decide) (by decide) (by decide)

/-- C8 counterexample: the claim says an input reaching the Historical
Events rule is assigned "Historical Events" only if the first 500
characters of the overview contain no pronoun marker; but a title keyword
("operation") assigns Historical Events even though the overview's first
500 characters contain the pronoun marker "she ". -/
theorem c8_title_keyword_ignores_pronoun :
    categorize_subject_from_overview "Operation X" (some "She waits quietly.") none
        = "Historical Events"
    ∧ hasPronoun (strLower "She waits quietly.") = true :=
  ⟨by decide, by decide⟩

/-- C8 (amended): the pronoun guard applies only to the genre-based
disjunct of the Historical Events rule — for inputs whose lower-cased
title contains no event keyword, a pronoun marker in the first 500
characters of the overview blocks Historical Events; the example text
"She leads the operation to rescue hostages." with History tags and such
a title does not classify as Historical Events, and it does not fall
through to Other either: it matches the earlier Entertainers rule
("stage" occurs inside "hostages"). -/
theorem c8_pronoun_guard_genre_disjunct :
    (∀ (title ov : String) (g : Option String),
        containsAny (strLower title) eventTitleKeywords = false →
        hasPronoun (strLower ov) = true →
        categorize_subject_from_overview title (some ov) g ≠ "Historical Events")
    ∧ categorize_subject_from_overview "t"
        (some "She leads the operation to rescue hostages.") (some "History") = "Entertainers" :=
  ⟨categorize_pronoun_blocks_histEvents, by decide⟩

theorem c8_pronoun_guard_genre_disjunct_witness :
    categorize_subject_from_overview "t" (some "She waits quietly.") none ≠ "Historical Events" :=
  c8_pronoun_guard_genre_disjunct.1 "t" "She waits quietly." none (by decide) (by decide)

/-! ## Claims C1-C5, C9: the enrichment stages -/

theorem find?_append_none {α : Type} (p : α → Bool) :
    ∀ (l₁ l₂ : List α), l₁.find? p = none → (l₁ ++ l₂).find? p = l₂.find? p := by
  intro l₁
  induction l₁ with
  | nil => intro l₂ _; rfl
  | cons a t ih =>
    intro l₂ h
    rw [List.find?_cons] at h
    rw [List.cons_append, List.find?_cons]
    cases hpa : p a with
    | true => exact absurd h (by simp [hpa])
    | false =>
      simp only [hpa] at h ⊢
      exact ih l₂ h

theorem dimFind_none_filter (rows : List DimRow) (v : String)
    (h : dimFind rows v = none) : rows.filter (fun r => r.2 == v) = [] := by
  rw [List.filter_eq_nil_iff]
  intro r hr hrv
  have hfind : rows.find? (fun r => r.2 == v) = none := by
    unfold dimFind at h
    exact Option.map_eq_none'.mp h
  exact absurd hrv (by simpa using List.find?_eq_none.mp hfind r hr)

theorem dimFind_some_filter_one (rows : List DimRow) (v : String) (i : Nat)
    (hfind : dimFind rows v = some i)
    (hle : (rows.filter (fun r => r.2 == v)).length ≤ 1) :
    (rows.filter (fun r => r.2 == v)).length = 1 := by
  obtain ⟨r, hr, hri⟩ := Option.map_eq_some'.mp hfind
  have hmem : r ∈ rows := List.mem_of_find?_eq_some hr
  have hp := List.find?_some hr
  have : r ∈ rows.filter (fun r => r.2 == v) := List.mem_filter.mpr ⟨hmem, hp⟩
  have hpos : 0 < (rows.filter (fun r => r.2 == v)).length :=
    List.length_pos.mpr (List.ne_nil_of_mem this)
  omega

theorem dimInsert_filter_one (rows : List DimRow) (v : String)
    (h : dimFind rows v = none) :
    ((dimInsert rows v).filter (fun r => r.2 == v)).length = 1 := by
  unfold dimInsert
  rw [List.filter_append, dimFind_none_filter rows v h]
  simp

theorem dimFind_dimInsert_self (rows : List DimRow) (v : String)
    (h : dimFind rows v = none) :
    dimFind (dimInsert rows v) v = some (rows.length + 1) := by
  have hfind : rows.find? (fun r => r.2 == v) = none := by
    unfold dimFind at h
    exact Option.map_eq_none'.mp h
  unfold dimFind dimInsert
  rw [find?_append_none _ rows _ hfind]
  simp [List.find?_cons]

theorem insertOrIgnorePair_count (l : List (Nat × Nat)) (p : Nat × Nat)
    (h : l.count p ≤ 1) : (insertOrIgnorePair l p).count p = 1 := by
  unfold insertOrIgnorePair
  by_cases hp : p ∈ l
  · rw [if_pos hp]
    have : 1 ≤ l.count p := List.one_le_count_iff.mpr hp
    omega
  · rw [if_neg hp]
    rw [List.count_append]
    rw [List.count_eq_zero.mpr hp]
    simp

theorem insertOrIgnorePair_idem (l : List (Nat × Nat)) (p : Nat × Nat) :
    insertOrIgnorePair (insertOrIgnorePair l p) p = insertOrIgnorePair l p := by
  have hp : p ∈ insertOrIgnorePair l p := by
    unfold insertOrIgnorePair
    by_cases hp : p ∈ l
    · rw [if_pos hp]; exact hp
    · rw [if_neg hp]; exact List.mem_append_right l (List.mem_singleton.mpr rfl)
  show (if p ∈ insertOrIgnorePair l p then insertOrIgnorePair l p
        else insertOrIgnorePair l p ++ [p]) = insertOrIgnorePair l p
  rw [if_pos hp]

/-- C9: for every dimension table (Genres, ReleaseDates, Categories) whose
rows hold a value at most once, the get-or-create operation leaves exactly
one row holding the requested value, and calling it again returns the same
id and changes nothing; for every junction table, `INSERT OR IGNORE` of
the same pair twice yields exactly one link row. -/
theorem c9_dimension_junction_uniqueness :
    (∀ (s : TmdbState) (n : String),
        (s.cur.genres.filter (fun r => r.2 == n)).length ≤ 1 →
        ((insert_or_get_genre s n).1.cur.genres.filter (fun r => r.2 == n)).length = 1
          ∧ insert_or_get_genre (insert_or_get_genre s n).1 n = insert_or_get_genre s n)
    ∧ (∀ (s : TmdbState) (d : String),
        (s.cur.releaseDates.filter (fun r => r.2 == d)).length ≤ 1 →
        ((insert_or_get_release_date s d).1.cur.releaseDates.filter
            (fun r => r.2 == d)).length = 1
          ∧ insert_or_get_release_date (insert_or_get_release_date s d).1 d
              = insert_or_get_release_date s d)
    ∧ (∀ (s : CalcState) (n : String),
        (s.cur.categories.filter (fun r => r.2 == n)).length ≤ 1 →
        ((insert_or_get_category s n).1.cur.categories.filter (fun r => r.2 == n)).length = 1
          ∧ insert_or_get_category (insert_or_get_category s n).1 n
              = insert_or_get_category s n)
    ∧ (∀ (l : List (Nat × Nat)) (p : Nat × Nat),
        l.count p ≤ 1 →
        (insertOrIgnorePair l p).count p = 1
          ∧ insertOrIgnorePair (insertOrIgnorePair l p) p = insertOrIgnorePair l p) := by
  refine ⟨?_, ?_, ?_, ?_⟩
  · intro s n hle
    unfold insert_or_get_genre
    cases hf : dimFind s.cur.genres n with
    | some i =>
      exact ⟨dimFind_some_filter_one s.cur.genres n i hf hle, by
        show (match dimFind s.cur.genres n with
              | some gid => (s, gid)
              | none => _) = _
        rw [hf]⟩
    | none =>
      constructor
      · exact dimInsert_filter_one s.cur.genres n hf
      · show (match dimFind (dimInsert s.cur.genres n) n with
              | some gid => _
              | none => _) = _
        rw [dimFind_dimInsert_self s.cur.genres n hf]
  · intro s d hle
    unfold insert_or_get_release_date
    cases hf : dimFind s.cur.releaseDates d with
    | some i =>
      exact ⟨dimFind_some_filter_one s.cur.releaseDates d i hf hle, by
        show (match dimFind s.cur.releaseDates d with
              | some did => (s, did)
              | none => _) = _
        rw [hf]⟩
    | none =>
      constructor
      · exact dimInsert_filter_one s.cur.releaseDates d hf
      · show (match dimFind (dimInsert s.cur.releaseDates d) d with
              | some did => _
              | none => _) = _
        rw [dimFind_dimInsert_self s.cur.releaseDates d hf]
  · intro s n hle
    unfold insert_or_get_category
    cases hf : dimFind s.cur.categories n with
    | some i =>
      exact ⟨dimFind_some_filter_one s.cur.categories n i hf hle, by
        show (match dimFind s.cur.categories n with
              | some cid => (s, cid)
              | none => _) = _
        rw [hf]⟩
    | none =>
      constructor
      · exact dimInsert_filter_one s.cur.categories n hf
      · show (match dimFind (dimInsert s.cur.categories n) n with
              | some cid => _
              | none => _) = _
        rw [dimFind_dimInsert_self s.cur.categories n hf]
  · intro l p hle
    exact ⟨insertOrIgnorePair_count l p hle, insertOrIgnorePair_idem l p⟩

theorem c9_dimension_junction_uniqueness_witness :
    (((insert_or_get_genre ⟨dbSolo, dbSolo, 0⟩ "Drama").1.cur.genres.filter
        (fun r => r.2 == "Drama")).length = 1
      ∧ insert_or_get_genre (insert_or_get_genre ⟨dbSolo, dbSolo, 0⟩ "Drama").1 "Drama"
          = insert_or_get_genre ⟨dbSolo, dbSolo, 0⟩ "Drama")
    ∧ (((insert_or_get_release_date ⟨dbSolo, dbSolo, 0⟩ "2020-01-01").1.cur.releaseDates.filter
        (fun r => r.2 == "2020-01-01")).length = 1
      ∧ insert_or_get_release_date
          (insert_or_get_release_date ⟨dbSolo, dbSolo, 0⟩ "2020-01-01").1 "2020-01-01"
          = insert_or_get_release_date ⟨dbSolo, dbSolo, 0⟩ "2020-01-01")
    ∧ (((insert_or_get_category ⟨calcDbTwo, calcDbTwo⟩ "Other").1.cur.categories.filter
        (fun r => r.2 == "Other")).length = 1
      ∧ insert_or_get_category (insert_or_get_category ⟨calcDbTwo, calcDbTwo⟩ "Other").1 "Other"
          = insert_or_get_category ⟨calcDbTwo, calcDbTwo⟩ "Other")
    ∧ ((insertOrIgnorePair [(1, 2)] (1, 2)).count (1, 2) = 1
      ∧ insertOrIgnorePair (insertOrIgnorePair [(1, 2)] (1, 2)) (1, 2)
          = insertOrIgnorePair [(1, 2)] (1, 2)) :=
  ⟨c9_dimension_junction_uniqueness.1 ⟨dbSolo, dbSolo, 0⟩ "Drama" (by decide),
   c9_dimension_junction_uniqueness.2.1 ⟨dbSolo, dbSolo, 0⟩ "2020-01-01" (by decide),
   c9_dimension_junction_uniqueness.2.2.1 ⟨calcDbTwo, calcDbTwo⟩ "Other" (by decide),
   c9_dimension_junction_uniqueness.2.2.2 [(1, 2)] (1, 2) (by decide)⟩

/-! ## Helper lemmas: folds over batches -/

theorem foldl_dead_always {σ M : Type} (step : σ → M → σ) (dead : σ → Nat → Prop) (k : Nat)
    (stable : ∀ s m', dead s k → dead (step s m') k) :
    ∀ (l : List M) (s : σ), dead s k → dead (l.foldl step s) k := by
  intro l
  induction l with
  | nil => intro s h; exact h
  | cons x xs ih => intro s h; exact ih (step s x) (stable s x h)

theorem foldl_stable_of_keys {σ M : Type} (step : σ → M → σ) (dead : σ → Nat → Prop)
    (key : M → Nat) (k : Nat)
    (stable : ∀ s m', key m' ≠ k → dead s k → dead (step s m') k) :
    ∀ (l : List M) (s : σ), (∀ m' ∈ l, key m' ≠ k) → dead s k → dead (l.foldl step s) k := by
  intro l
  induction l with
  | nil => intro s _ h; exact h
  | cons x xs ih =>
    intro s hne h
    exact ih (step s x) (fun m' hm => hne m' (List.mem_cons_of_mem x hm))
      (stable s x (hne x (List.mem_cons_self x xs)) h)

theorem foldl_dead_keyed {σ M : Type} (step : σ → M → σ) (dead : σ → Nat → Prop)
    (key : M → Nat) :
    ∀ (l : List M) (m : M), m ∈ l → (l.map key).Nodup →
      (∀ s, dead (step s m) (key m)) →
      (∀ s m', key m' ≠ key m → dead s (key m) → dead (step s m') (key m)) →
      ∀ s, dead (l.foldl step s) (key m) := by
  intro l
  induction l with
  | nil => intro m hm; exact absurd hm (List.not_mem_nil m)
  | cons x xs ih =>
    intro m hm hnd hkill hstab s
    have hnd' : (key x ∉ xs.map key) ∧ (xs.map key).Nodup := by
      rw [List.map_cons] at hnd
      exact List.nodup_cons.mp hnd
    rcases List.mem_cons.mp hm with rfl | hm'
    · refine foldl_stable_of_keys step dead key (key m) hstab xs (step s m) ?_ (hkill s)
      intro m' hm' heq
      exact hnd'.1 (heq ▸ List.mem_map_of_mem key hm')
    · exact ih m hm' hnd'.2 hkill hstab (step s x)

theorem foldl_dead_of_mem {σ M : Type} (step : σ → M → σ) (dead : σ → Nat → Prop)
    (key : M → Nat) (l : List M)
    (kill : ∀ s m', m' ∈ l → dead (step s m') (key m'))
    (stable : ∀ s m' k, dead s k → dead (step s m') k) :
    ∀ (m : M), m ∈ l → ∀ s, dead (l.foldl step s) (key m) := by
  induction l with
  | nil => intro m hm; exact absurd hm (List.not_mem_nil m)
  | cons x xs ih =>
    intro m hm s
    rcases List.mem_cons.mp hm with rfl | hm'
    · exact foldl_dead_always step dead (key m) (fun s' m'' => stable s' m'' (key m)) xs
        (step s m) (kill s m (List.mem_cons_self m xs))
    · exact ih (fun s' m'' hmem => kill s' m'' (List.mem_cons_of_mem x hmem)) m hm' (step s x)

/-! ## Helper lemmas: the metadata stage -/

theorem tmdbProcessOne_ok (resolver : String → TmdbResult) (s : TmdbState) (m : Movie)
    (h : resolver m.title ≠ .transportError) :
    tmdbProcessOne resolver s m = .ok (tmdbStepOk resolver s m) := by
  unfold tmdbStepOk tmdbProcessOne
  cases hres : resolver m.title with
  | transportError => exact absurd hres h
  | notFound => rfl
  | found d => rfl

theorem tmdbLoop_eq_foldl (resolver : String → TmdbResult) :
    ∀ (l : List Movie) (s : TmdbState),
      (∀ m ∈ l, resolver m.title ≠ .transportError) →
      tmdbLoop resolver s l = .ok (l.foldl (tmdbStepOk resolver) s) := by
  intro l
  induction l with
  | nil => intro s _; rfl
  | cons x xs ih =>
    intro s hnt
    have hx := tmdbProcessOne_ok resolver s x (hnt x (List.mem_cons_self x xs))
    show (match tmdbProcessOne resolver s x with
          | Except.error e => Except.error e
          | Except.ok s' => tmdbLoop resolver s' xs) = _
    rw [hx]
    exact ih (tmdbStepOk resolver s x) (fun m hm => hnt m (List.mem_cons_of_mem x hm))

theorem tmdbRunState_eq_foldl (resolver : String → TmdbResult) (db : TmdbDB) (lim : Nat)
    (h : ∀ m ∈ tmdbSelect db lim, resolver m.title ≠ .transportError) :
    tmdbRunState resolver db lim
      = (tmdbSelect db lim).foldl (tmdbStepOk resolver) ⟨db, db, 0⟩ := by
  unfold tmdbRunState populate_tmdb_data
  rw [tmdbLoop_eq_foldl resolver (tmdbSelect db lim) ⟨db, db, 0⟩ h]

theorem insert_or_get_genre_movies (s : TmdbState) (n : String) :
    (insert_or_get_genre s n).1.cur.movies = s.cur.movies := by
  unfold insert_or_get_genre
  cases dimFind s.cur.genres n <;> rfl

theorem insert_or_get_release_date_movies (s : TmdbState) (d : String) :
    (insert_or_get_release_date s d).1.cur.movies = s.cur.movies := by
  unfold insert_or_get_release_date
  cases dimFind s.cur.releaseDates d <;> rfl

theorem addGenre_movies (mid : Nat) (s : TmdbState) (g : String) :
    (addGenre mid s g).cur.movies = s.cur.movies := by
  unfold addGenre
  exact insert_or_get_genre_movies s g

theorem addGenres_movies (mid : Nat) :
    ∀ (gs : List String) (s : TmdbState), (addGenres s mid gs).cur.movies = s.cur.movies := by
  intro gs
  induction gs with
  | nil => intro s; rfl
  | cons g gs ih =>
    intro s
    show (addGenres (addGenre mid s g) mid gs).cur.movies = s.cur.movies
    rw [ih (addGenre mid s g), addGenre_movies]

theorem addReleaseDate_movies (s : TmdbState) (mid : Nat) (rd : Option String) :
    (addReleaseDate s mid rd).cur.movies = s.cur.movies := by
  unfold addReleaseDate
  split
  · rfl
  · split
    · rfl
    · exact insert_or_get_release_date_movies s _

theorem tmdbStepOk_notFound (resolver : String → TmdbResult) (s : TmdbState) (m : Movie)
    (h : resolver m.title = .notFound) : tmdbStepOk resolver s m = s := by
  unfold tmdbStepOk tmdbProcessOne
  rw [h]

theorem tmdbStepOk_err (resolver : String → TmdbResult) (s : TmdbState) (m : Movie)
    (h : resolver m.title = .transportError) : tmdbStepOk resolver s m = s := by
  unfold tmdbStepOk tmdbProcessOne
  rw [h]

theorem tmdbStepOk_found_movies (resolver : String → TmdbResult) (s : TmdbState) (m : Movie)
    (d : TmdbDetails) (h : resolver m.title = .found d) :
    (tmdbStepOk resolver s m).cur.movies
      = updateMovie s.cur.movies m.id d.tid d.revenue d.overview := by
  unfold tmdbStepOk tmdbProcessOne
  rw [h]
  show (tmdbCommit (addReleaseDate (addGenres _ m.id d.genres) m.id d.release_date)).cur.movies
      = _
  rw [show ∀ t : TmdbState, (tmdbCommit t).cur = t.cur from fun _ => rfl]
  rw [addReleaseDate_movies, addGenres_movies]

theorem updateMovie_marked (movies : List Movie) (k tid : Nat) (rev : Int)
    (ov : Option String) :
    (updateMovie movies k tid rev ov).all
        (fun x => !(x.id == k) || x.tmdb_id.isSome) = true := by
  rw [List.all_eq_true]
  intro x hx
  obtain ⟨y, _, rfl⟩ := List.mem_map.mp hx
  by_cases hy : y.id = k
  · simp [hy]
  · simp [hy]

theorem updateMovie_marked_stable (movies : List Movie) (j tid : Nat) (rev : Int)
    (ov : Option String) (k : Nat)
    (h : movies.all (fun x => !(x.id == k) || x.tmdb_id.isSome) = true) :
    (updateMovie movies j tid rev ov).all
        (fun x => !(x.id == k) || x.tmdb_id.isSome) = true := by
  rw [List.all_eq_true] at h ⊢
  intro x hx
  obtain ⟨y, hy, rfl⟩ := List.mem_map.mp hx
  by_cases hj : y.id = j
  · simp [hj]
  · simpa [hj] using h y hy

theorem tmdbProcessOne_ok_commit (resolver : String → TmdbResult) (s : TmdbState) (m : Movie)
    (s' : TmdbState) (h : tmdbProcessOne resolver s m = .ok s')
    (hs : s.committed = s.cur) : s'.committed = s'.cur := by
  unfold tmdbProcessOne at h
  cases hres : resolver m.title <;> rw [hres] at h
  · injection h with h2
    subst h2
    rfl
  · injection h with h2
    subst h2
    exact hs
  · exact Except.noConfusion h

theorem tmdbProcessOne_error_state (resolver : String → TmdbResult) (s : TmdbState) (m : Movie)
    (e : TmdbState) (h : tmdbProcessOne resolver s m = .error e) : e = s := by
  unfold tmdbProcessOne at h
  cases hres : resolver m.title <;> rw [hres] at h
  · exact Except.noConfusion h
  · exact Except.noConfusion h
  · injection h with h2
    exact h2.symm

theorem tmdbLoop_commit_ok (resolver : String → TmdbResult) :
    ∀ (l : List Movie) (s : TmdbState), s.committed = s.cur →
      ∀ s', tmdbLoop resolver s l = .ok s' → s'.committed = s'.cur := by
  intro l
  induction l with
  | nil =>
    intro s hs s' h
    injection h with h2
    subst h2
    exact hs
  | cons x xs ih =>
    intro s hs s' h
    have h' : (match tmdbProcessOne resolver s x with
        | Except.error e => Except.error e
        | Except.ok s1 => tmdbLoop resolver s1 xs) = Except.ok s' := h
    cases hpo : tmdbProcessOne resolver s x with
    | error e => rw [hpo] at h'; exact Except.noConfusion h'
    | ok s1 =>
      rw [hpo] at h'
      exact ih s1 (tmdbProcessOne_ok_commit resolver s x s1 hpo hs) s' h'

theorem tmdbLoop_commit_error (resolver : String → TmdbResult) :
    ∀ (l : List Movie) (s : TmdbState), s.committed = s.cur →
      ∀ e, tmdbLoop resolver s l = .error e → e.committed = e.cur := by
  intro l
  induction l with
  | nil =>
    intro s hs e h
    exact Except.noConfusion h
  | cons x xs ih =>
    intro s hs e h
    have h' : (match tmdbProcessOne resolver s x with
        | Except.error e => Except.error e
        | Except.ok s1 => tmdbLoop resolver s1 xs) = Except.error e := h
    cases hpo : tmdbProcessOne resolver s x with
    | error e1 =>
      rw [hpo] at h'
      injection h' with h2
      rw [← h2]
      rw [tmdbProcessOne_error_state resolver s x e1 hpo]
      exact hs
    | ok s1 =>
      rw [hpo] at h'
      exact ih s1 (tmdbProcessOne_ok_commit resolver s x s1 hpo hs) e h'

/-! ## Helper lemmas: the plot and category stages -/

theorem plotsProcessOne_committed (fetch : String → FetchOutcome) (s : PlotsState) (m : Movie) :
    (plotsProcessOne fetch s m).committed = s.committed := by
  unfold plotsProcessOne
  split
  · split
    · rfl
    · rfl
  · rfl

theorem plotsFoldl_committed (fetch : String → FetchOutcome) :
    ∀ (l : List Movie) (s : PlotsState),
      (l.foldl (plotsProcessOne fetch) s).committed = s.committed := by
  intro l
  induction l with
  | nil => intro s; rfl
  | cons x xs ih =>
    intro s
    show (xs.foldl (plotsProcessOne fetch) (plotsProcessOne fetch s x)).committed = s.committed
    rw [ih (plotsProcessOne fetch s x), plotsProcessOne_committed]

theorem plotsProcessOne_plots (fetch : String → FetchOutcome) (s : PlotsState) (m : Movie) :
    ∃ v, (plotsProcessOne fetch s m).cur.plots
        = s.cur.plots.filter (fun r => !(r.movie_id == m.id)) ++ [⟨m.id, v⟩] := by
  unfold plotsProcessOne
  split
  · split
    · exact ⟨none, rfl⟩
    · exact ⟨some _, rfl⟩
  · exact ⟨none, rfl⟩

theorem plotsProcessOne_found (fetch : String → FetchOutcome) (s : PlotsState) (m : Movie)
    (p : String) (hf : fetch m.title = .found p) (hp : p ≠ "") :
    (plotsProcessOne fetch s m).cur.plots
        = s.cur.plots.filter (fun r => !(r.movie_id == m.id)) ++ [⟨m.id, some p⟩] := by
  have hg : get_wikipedia_plot fetch m.title = some p := by
    unfold get_wikipedia_plot
    rw [hf]
  unfold plotsProcessOne
  rw [hg]
  show (if p = "" then { s with cur := upsertPlot s.cur m.id none }
        else { s with cur := upsertPlot s.cur m.id (some p),
                      successful := s.successful + 1 }).cur.plots = _
  rw [if_neg hp]
  rfl

theorem plotsProcessOne_notFound (fetch : String → FetchOutcome) (s : PlotsState) (m : Movie)
    (hf : fetch m.title = .notFound) :
    (plotsProcessOne fetch s m).cur.plots
        = s.cur.plots.filter (fun r => !(r.movie_id == m.id)) ++ [⟨m.id, none⟩] := by
  have hg : get_wikipedia_plot fetch m.title = none := by
    unfold get_wikipedia_plot
    rw [hf]
  unfold plotsProcessOne
  rw [hg]
  rfl

theorem populate_plots_cur (fetch : String → FetchOutcome) (db : PlotsDB) (lim : Nat) :
    (populate_plots_table fetch db lim).1.cur
      = ((plotsSelect db lim).foldl (plotsProcessOne fetch) ⟨db, db, 0⟩).cur := by
  unfold populate_plots_table
  by_cases h : (plotsSelect db lim).isEmpty
  · rw [if_pos h, List.isEmpty_iff.mp h]
    rfl
  · rw [if_neg h]

theorem insert_or_get_category_mc (s : CalcState) (n : String) :
    (insert_or_get_category s n).1.cur.movieCategories = s.cur.movieCategories := by
  unfold insert_or_get_category
  cases dimFind s.cur.categories n <;> rfl

theorem calcProcessOne_mc (s : CalcState) (r : CalcRow) :
    ∃ cid, (calcProcessOne s r).cur.movieCategories
        = insertOrIgnorePair s.cur.movieCategories (r.movie_id, cid) := by
  refine ⟨(insert_or_get_category s
      (categorize_subject_from_overview r.title r.overview r.genre_names)).2, ?_⟩
  have h1 : (calcProcessOne s r).cur.movieCategories
      = insertOrIgnorePair
          (insert_or_get_category s
            (categorize_subject_from_overview
              r.title r.overview r.genre_names)).1.cur.movieCategories
          (r.movie_id,
            (insert_or_get_category s
              (categorize_subject_from_overview r.title r.overview r.genre_names)).2) := rfl
  rw [h1, insert_or_get_category_mc]

theorem populate_calc_cur (db : CalcDB) (lim : Nat) :
    (populate_movie_categories db lim).1.cur
      = ((calcSelect db lim).foldl calcProcessOne ⟨db, db⟩).cur := by
  unfold populate_movie_categories
  by_cases h : (calcSelect db lim).isEmpty
  · rw [if_pos h, List.isEmpty_iff.mp h]
    rfl
  · rw [if_neg h]

theorem mem_insertOrIgnorePair (l : List (Nat × Nat)) (p x : Nat × Nat) (h : x ∈ l) :
    x ∈ insertOrIgnorePair l p := by
  unfold insertOrIgnorePair
  by_cases hp : p ∈ l
  · rw [if_pos hp]; exact h
  · rw [if_neg hp]; exact List.mem_append_left _ h

theorem insertOrIgnorePair_self_any (l : List (Nat × Nat)) (k c : Nat) :
    (insertOrIgnorePair l (k, c)).any (fun p => p.1 == k) = true := by
  unfold insertOrIgnorePair
  by_cases hp : (k, c) ∈ l
  · rw [if_pos hp]
    exact List.any_eq_true.mpr ⟨(k, c), hp, by simp⟩
  · rw [if_neg hp]
    exact List.any_eq_true.mpr ⟨(k, c), List.mem_append_right _ (by simp), by simp⟩

/-! ## Helper lemmas: selection queries -/

theorem mem_tmdbSelect (db : TmdbDB) (lim : Nat) (m : Movie) (h : m ∈ tmdbSelect db lim) :
    m ∈ db.movies ∧ m.tmdb_id = none := by
  have h1 := List.take_subset lim _ h
  have h2 := List.mem_filter.mp h1
  exact ⟨h2.1, Option.isNone_iff_eq_none.mp h2.2⟩

theorem mem_plotsSelect (db : PlotsDB) (lim : Nat) (m : Movie) (h : m ∈ plotsSelect db lim) :
    m ∈ db.movies ∧ plotsPred db m = true := by
  have h1 := List.take_subset lim _ h
  exact List.mem_filter.mp h1

theorem mem_calcSelect (db : CalcDB) (lim : Nat) (r : CalcRow) (h : r ∈ calcSelect db lim) :
    ∃ m, m ∈ db.movies ∧ calcPred db m = true ∧ r.movie_id = m.id := by
  have h1 := List.take_subset lim _ h
  obtain ⟨m, hm, rfl⟩ := List.mem_map.mp h1
  have h2 := List.mem_filter.mp hm
  exact ⟨m, h2.1, h2.2, rfl⟩

theorem plotsSelect_nodup (db : PlotsDB) (lim : Nat)
    (h : (db.movies.map Movie.id).Nodup) :
    ((plotsSelect db lim).map Movie.id).Nodup := by
  have hsub : List.Sublist (plotsSelect db lim) db.movies :=
    (List.take_sublist lim _).trans (List.filter_sublist db.movies)
  exact h.sublist (hsub.map Movie.id)

theorem plotRow_filter_self_ne (l : List PlotRow) (mid : Nat) :
    (l.filter (fun r => !(r.movie_id == mid))).filter (fun r => r.movie_id == mid) = [] := by
  rw [List.filter_filter]
  apply List.filter_eq_nil_iff.mpr
  intro r hr
  simp

theorem plotRow_filter_comm_ne (l : List PlotRow) (j k : Nat) (h : j ≠ k) :
    (l.filter (fun r => !(r.movie_id == j))).filter (fun r => r.movie_id == k)
      = l.filter (fun r => r.movie_id == k) := by
  rw [List.filter_filter]
  apply List.filter_congr
  intro r hr
  by_cases hk : r.movie_id = k
  · have hj : (r.movie_id == j) = false := by
      rw [beq_eq_false_iff_ne, hk]
      exact fun hh => h hh.symm
    simp only [hk, hj]
    simp
    exact fun hh => h hh.symm
  · simp [hk]

/-- C1 (amended): on a not-found result the metadata stage writes nothing at
all — the loop body is a no-op, so the entity (still `tmdb_id IS NULL`)
is reselected; the plot stage does write an explicit `(movie_id, NULL)`
marker row, but its selection query treats NULL-summary rows as
unprocessed, so the entity still satisfies the selection predicate and is
reselected by a later run.  No stage prevents reselection of a not-found
entity. -/
theorem c1_not_found_markers :
    (∀ (resolver : String → TmdbResult) (s : TmdbState) (m : Movie),
        resolver m.title = .notFound → tmdbProcessOne resolver s m = .ok s)
    ∧ (∀ (fetch : String → FetchOutcome) (db : PlotsDB) (lim : Nat) (m : Movie),
        (db.movies.map Movie.id).Nodup →
        m ∈ plotsSelect db lim →
        fetch m.title = .notFound →
        (PlotRow.mk m.id none) ∈ (populate_plots_table fetch db lim).1.cur.plots
          ∧ plotsPred (populate_plots_table fetch db lim).1.cur m = true) := by
  constructor
  · intro resolver s m h
    unfold tmdbProcessOne
    rw [h]
  · intro fetch db lim m hnd hmem hnf
    have hdead : ((plotsSelect db lim).foldl (plotsProcessOne fetch)
        ⟨db, db, 0⟩).cur.plots.filter (fun r => r.movie_id == m.id) = [⟨m.id, none⟩] := by
      refine foldl_dead_keyed (plotsProcessOne fetch)
        (fun s k => s.cur.plots.filter (fun r => r.movie_id == k) = [⟨k, none⟩])
        Movie.id (plotsSelect db lim) m hmem (plotsSelect_nodup db lim hnd)
        ?_ ?_ ⟨db, db, 0⟩
      · intro s
        rw [plotsProcessOne_notFound fetch s m hnf, List.filter_append,
          plotRow_filter_self_ne]
        simp
      · intro s m2 hne hdead
        obtain ⟨v, hv⟩ := plotsProcessOne_plots fetch s m2
        have hb : (m2.id == m.id) = false := beq_eq_false_iff_ne.mpr hne
        rw [hv, List.filter_append]
        have h2 : ([(⟨m2.id, v⟩ : PlotRow)].filter (fun r => r.movie_id == m.id)) = [] := by
          simp [hb]
        rw [h2, List.append_nil, plotRow_filter_comm_ne _ m2.id m.id hne]
        exact hdead
    rw [populate_plots_cur]
    constructor
    · have : (PlotRow.mk m.id none) ∈ ((plotsSelect db lim).foldl (plotsProcessOne fetch)
          ⟨db, db, 0⟩).cur.plots.filter (fun r => r.movie_id == m.id) := by
        rw [hdead]
        exact List.mem_singleton.mpr rfl
      exact List.mem_of_mem_filter this
    · have hany : ((plotsSelect db lim).foldl (plotsProcessOne fetch)
          ⟨db, db, 0⟩).cur.plots.any
            (fun r => r.movie_id == m.id && r.plot_summary.isSome) = false := by
        cases hb : ((plotsSelect db lim).foldl (plotsProcessOne fetch)
            ⟨db, db, 0⟩).cur.plots.any
              (fun r => r.movie_id == m.id && r.plot_summary.isSome) with
        | false => rfl
        | true =>
          exfalso
          obtain ⟨r, hr, hpred⟩ := List.any_eq_true.mp hb
          rw [Bool.and_eq_true] at hpred
          obtain ⟨hid, hsome⟩ := hpred
          have hrf : r ∈ ((plotsSelect db lim).foldl (plotsProcessOne fetch)
              ⟨db, db, 0⟩).cur.plots.filter (fun r => r.movie_id == m.id) :=
            List.mem_filter.mpr ⟨hr, hid⟩
          rw [hdead, List.mem_singleton] at hrf
          rw [hrf] at hsome
          exact Bool.noConfusion hsome
      unfold plotsPred
      rw [hany]
      rfl

theorem c1_not_found_markers_witness :
    (PlotRow.mk 3 none)
        ∈ (populate_plots_table fetchNone plotsDbW 25).1.cur.plots
      ∧ plotsPred (populate_plots_table fetchNone plotsDbW 25).1.cur
          ⟨3, "w", none, 0, none⟩ = true :=
  c1_not_found_markers.2 fetchNone plotsDbW 25 ⟨3, "w", none, 0, none⟩
    (by decide) (by decide) rfl

/-- C1 counterexample: with a not-found search result the metadata stage
writes no marker of any kind — the store is unchanged — and the second
run's selection query selects the same entity again. -/
theorem c1_tmdb_no_absence_marker :
    soloRun.cur = dbSolo
    ∧ tmdbSelect soloRun.cur 25 = [⟨1, "solo", none, 0, none⟩] :=
  ⟨by decide, by decide⟩

/-- C2 (amended): a second run of the same stage never reselects an entity
the first run attempted, provided every attempted entity resolved as found
(for the category stage this holds unconditionally, since its resolver is
the pure classifier).  A not-found entity in the metadata or plot stage is
reselected by the second run (see the counterexample). -/
theorem c2_second_run_skips_attempted :
    (∀ (db : CalcDB) (lim lim2 : Nat) (r r2 : CalcRow),
        r ∈ calcSelect db lim →
        r2 ∈ calcSelect (populate_movie_categories db lim).1.cur lim2 →
        r2.movie_id ≠ r.movie_id)
    ∧ (∀ (fetch : String → FetchOutcome) (db : PlotsDB) (lim lim2 : Nat) (m m2 : Movie),
        (db.movies.map Movie.id).Nodup →
        (∀ x ∈ plotsSelect db lim, ∃ p, fetch x.title = .found p ∧ p ≠ "") →
        m ∈ plotsSelect db lim →
        m2 ∈ plotsSelect (populate_plots_table fetch db lim).1.cur lim2 →
        m2.id ≠ m.id)
    ∧ (∀ (resolver : String → TmdbResult) (db : TmdbDB) (lim lim2 : Nat) (m m2 : Movie),
        (∀ x ∈ tmdbSelect db lim, ∃ d, resolver x.title = .found d) →
        m ∈ tmdbSelect db lim →
        m2 ∈ tmdbSelect (tmdbRunState resolver db lim).cur lim2 →
        m2.id ≠ m.id) := by
  refine ⟨?_, ?_, ?_⟩
  · intro db lim lim2 r r2 hr hr2 heq
    have hdead : ((calcSelect db lim).foldl calcProcessOne
        ⟨db, db⟩).cur.movieCategories.any (fun p => p.1 == r.movie_id) = true := by
      refine foldl_dead_of_mem calcProcessOne
        (fun s k => s.cur.movieCategories.any (fun p => p.1 == k) = true)
        CalcRow.movie_id (calcSelect db lim) ?_ ?_ r hr ⟨db, db⟩
      · intro s x hx
        obtain ⟨cid, hc⟩ := calcProcessOne_mc s x
        rw [hc]
        exact insertOrIgnorePair_self_any s.cur.movieCategories x.movie_id cid
      · intro s x k hk
        obtain ⟨cid, hc⟩ := calcProcessOne_mc s x
        obtain ⟨q, hq, hqk⟩ := List.any_eq_true.mp hk
        rw [hc]
        exact List.any_eq_true.mpr
          ⟨q, mem_insertOrIgnorePair s.cur.movieCategories (x.movie_id, cid) q hq, hqk⟩
    obtain ⟨m2, hm2, hpred2, hid2⟩ := mem_calcSelect _ lim2 r2 hr2
    rw [populate_calc_cur] at hpred2
    unfold calcPred at hpred2
    rw [Bool.and_eq_true] at hpred2
    have hfalse : ((calcSelect db lim).foldl calcProcessOne
        ⟨db, db⟩).cur.movieCategories.any (fun p => p.1 == m2.id) = false := by
      have h2 := hpred2.2
      cases hb : ((calcSelect db lim).foldl calcProcessOne
          ⟨db, db⟩).cur.movieCategories.any (fun p => p.1 == m2.id) with
      | false => rfl
      | true => rw [hb] at h2; exact Bool.noConfusion h2
    rw [← hid2, heq] at hfalse
    rw [hdead] at hfalse
    exact Bool.noConfusion hfalse
  · intro fetch db lim lim2 m m2 hnd hfound hm hm2 heq
    have hdead : ((plotsSelect db lim).foldl (plotsProcessOne fetch) ⟨db, db, 0⟩).cur.plots.any
        (fun r => r.movie_id == m.id && r.plot_summary.isSome) = true := by
      refine foldl_dead_keyed (plotsProcessOne fetch)
        (fun s k => s.cur.plots.any
          (fun r => r.movie_id == k && r.plot_summary.isSome) = true)
        Movie.id (plotsSelect db lim) m hm (plotsSelect_nodup db lim hnd)
        ?_ ?_ ⟨db, db, 0⟩
      · intro s
        obtain ⟨p, hf, hp⟩ := hfound m hm
        rw [plotsProcessOne_found fetch s m p hf hp, List.any_append]
        simp
      · intro s m3 hne hk
        obtain ⟨v, hv⟩ := plotsProcessOne_plots fetch s m3
        obtain ⟨q, hq, hqk⟩ := List.any_eq_true.mp hk
        rw [Bool.and_eq_true] at hqk
        have hqid : q.movie_id = m.id := by simpa using hqk.1
        have hqf : q ∈ s.cur.plots.filter (fun r => !(r.movie_id == m3.id)) := by
          refine List.mem_filter.mpr ⟨hq, ?_⟩
          rw [hqid]
          simp [beq_eq_false_iff_ne.mpr (fun hh => hne hh.symm)]
        rw [hv]
        refine List.any_eq_true.mpr ⟨q, List.mem_append_left _ hqf, ?_⟩
        rw [Bool.and_eq_true]
        exact hqk
    obtain ⟨_, hpred2⟩ := mem_plotsSelect _ lim2 m2 hm2
    rw [populate_plots_cur] at hpred2
    unfold plotsPred at hpred2
    have hfalse : ((plotsSelect db lim).foldl (plotsProcessOne fetch) ⟨db, db, 0⟩).cur.plots.any
        (fun r => r.movie_id == m2.id && r.plot_summary.isSome) = false := by
      cases hb : ((plotsSelect db lim).foldl (plotsProcessOne fetch)
          ⟨db, db, 0⟩).cur.plots.any
            (fun r => r.movie_id == m2.id && r.plot_summary.isSome) with
      | false => rfl
      | true => rw [hb] at hpred2; exact Bool.noConfusion hpred2
    rw [heq, hdead] at hfalse
    exact Bool.noConfusion hfalse
  · intro resolver db lim lim2 m m2 hfound hm hm2 heq
    have hnt : ∀ x ∈ tmdbSelect db lim, resolver x.title ≠ .transportError := by
      intro x hx h
      obtain ⟨d, hd⟩ := hfound x hx
      rw [hd] at h
      exact TmdbResult.noConfusion h
    rw [tmdbRunState_eq_foldl resolver db lim hnt] at hm2
    have hdead : ((tmdbSelect db lim).foldl (tmdbStepOk resolver) ⟨db, db, 0⟩).cur.movies.all
        (fun x => !(x.id == m.id) || x.tmdb_id.isSome) = true := by
      refine foldl_dead_of_mem (tmdbStepOk resolver)
        (fun s k => s.cur.movies.all (fun x => !(x.id == k) || x.tmdb_id.isSome) = true)
        Movie.id (tmdbSelect db lim) ?_ ?_ m hm ⟨db, db, 0⟩
      · intro s x hx
        obtain ⟨d, hd⟩ := hfound x hx
        have hmv := tmdbStepOk_found_movies resolver s x d hd
        show (tmdbStepOk resolver s x).cur.movies.all _ = true
        rw [hmv]
        exact updateMovie_marked s.cur.movies x.id d.tid d.revenue d.overview
      · intro s x k hk
        cases hres : resolver x.title with
        | found d =>
          have hmv := tmdbStepOk_found_movies resolver s x d hres
          show (tmdbStepOk resolver s x).cur.movies.all _ = true
          rw [hmv]
          exact updateMovie_marked_stable s.cur.movies x.id d.tid d.revenue d.overview k hk
        | notFound =>
          rw [tmdbStepOk_notFound resolver s x hres]
          exact hk
        | transportError =>
          rw [tmdbStepOk_err resolver s x hres]
          exact hk
    obtain ⟨hm2mem, hm2id⟩ := mem_tmdbSelect _ lim2 m2 hm2
    have h3 := List.all_eq_true.mp hdead m2 hm2mem
    rw [heq] at h3
    simp [hm2id] at h3
    
theorem c2_second_run_skips_attempted_witness :
    (CalcRow.mk 2 "b" (some "xyz") none).movie_id
      ≠ (CalcRow.mk 1 "a" (some "xyz") none).movie_id :=
  c2_second_run_skips_attempted.1 calcDbTwo 1 1
    (CalcRow.mk 1 "a" (some "xyz") none) (CalcRow.mk 2 "b" (some "xyz") none)
    (by decide) (by decide)

/-- C2 counterexample: a store with one entity whose search returns
not-found — the first run attempts it, and the second run's selection
query selects it again (it is not an empty set). -/
theorem c2_tmdb_not_found_reselected :
    (⟨5, "zeta", none, 0, none⟩ : Movie) ∈ tmdbSelect dbZeta 25
    ∧ tmdbSelect zetaRun.cur 25 = [⟨5, "zeta", none, 0, none⟩] :=
  ⟨by decide, by decide⟩

/-- C3 (amended): only the metadata stage commits each entity durably
before moving on — every state its loop reaches (normally or at a raise)
has its last committed snapshot equal to the cursor state; the plot
stage's loop performs no commit at all (the single commit happens after
the loop), and the category stage commits during the loop only when a new
category row is created (see the counterexample for an interrupted run
that loses a processed entity's junction row). -/
theorem c3_per_entity_commit_tmdb_only :
    (∀ (resolver : String → TmdbResult) (l : List Movie) (s : TmdbState),
        s.committed = s.cur →
        (∀ s2, tmdbLoop resolver s l = .ok s2 → s2.committed = s2.cur)
          ∧ (∀ e, tmdbLoop resolver s l = .error e → e.committed = e.cur))
    ∧ (∀ (fetch : String → FetchOutcome) (l : List Movie) (s : PlotsState),
        (l.foldl (plotsProcessOne fetch) s).committed = s.committed) :=
  ⟨fun resolver l s hs =>
    ⟨tmdbLoop_commit_ok resolver l s hs, tmdbLoop_commit_error resolver l s hs⟩,
   fun fetch l s => plotsFoldl_committed fetch l s⟩

theorem c3_per_entity_commit_tmdb_only_witness :
    (⟨dbSolo, dbSolo, 0⟩ : TmdbState).committed = (⟨dbSolo, dbSolo, 0⟩ : TmdbState).cur :=
  (c3_per_entity_commit_tmdb_only.1 neverFound (tmdbSelect dbSolo 25)
    ⟨dbSolo, dbSolo, 0⟩ rfl).1 ⟨dbSolo, dbSolo, 0⟩ rfl

/-- C3 counterexample: in the category stage, a batch of N = 2 selected
entities interrupted after K = 1 entity leaves the persistent (committed)
store with zero junction rows — the first entity's mutation exists only in
the uncommitted cursor state, because the loop commits once after the
whole batch. -/
theorem c3_calc_batch_commit_loses_entity :
    (calcSelect calcDbTwo 25).length = 2
    ∧ calcInterrupted.cur.movieCategories = [(1, 1)]
    ∧ calcInterrupted.committed.movieCategories = [] :=
  ⟨by decide, by decide, by decide⟩

/-- C4 (amended): in the plot stage a transport failure is caught inside
`get_wikipedia_plot` (turned into `None`, like not-found) and the batch
loop is total — every selected entity receives a row no matter how its
fetch resolves; in the metadata stage a transport failure raises out of
the batch loop immediately, leaving the remaining entities of the run
unattempted. -/
theorem c4_transport_failure_handling :
    (∀ (fetch : String → FetchOutcome) (t : String),
        fetch t = .transportError → get_wikipedia_plot fetch t = none)
    ∧ (∀ (fetch : String → FetchOutcome) (db : PlotsDB) (lim : Nat) (m : Movie),
        m ∈ plotsSelect db lim →
        ∃ r, r ∈ (populate_plots_table fetch db lim).1.cur.plots ∧ r.movie_id = m.id)
    ∧ (∀ (resolver : String → TmdbResult) (s : TmdbState) (m : Movie) (ms : List Movie),
        resolver m.title = .transportError →
        tmdbLoop resolver s (m :: ms) = .error s) := by
  refine ⟨?_, ?_, ?_⟩
  · intro fetch t h
    unfold get_wikipedia_plot
    rw [h]
  · intro fetch db lim m hm
    rw [populate_plots_cur]
    refine foldl_dead_of_mem (plotsProcessOne fetch)
      (fun s k => ∃ r, r ∈ s.cur.plots ∧ r.movie_id = k)
      Movie.id (plotsSelect db lim) ?_ ?_ m hm ⟨db, db, 0⟩
    · intro s x _
      obtain ⟨v, hv⟩ := plotsProcessOne_plots fetch s x
      refine ⟨⟨x.id, v⟩, ?_, rfl⟩
      rw [hv]
      exact List.mem_append_right _ (List.mem_singleton.mpr rfl)
    · intro s x k hk
      obtain ⟨r, hr, hrk⟩ := hk
      obtain ⟨v, hv⟩ := plotsProcessOne_plots fetch s x
      by_cases hxk : x.id = k
      · refine ⟨⟨x.id, v⟩, ?_, hxk⟩
        rw [hv]
        exact List.mem_append_right _ (List.mem_singleton.mpr rfl)
      · refine ⟨r, ?_, hrk⟩
        rw [hv]
        refine List.mem_append_left _ (List.mem_filter.mpr ⟨hr, ?_⟩)
        rw [hrk]
        simp [beq_eq_false_iff_ne.mpr (fun hh => hxk hh.symm)]
  · intro resolver s m ms h
    have hpo : tmdbProcessOne resolver s m = .error s := by
      unfold tmdbProcessOne
      rw [h]
    show (match tmdbProcessOne resolver s m with
          | Except.error e => Except.error e
          | Except.ok s1 => tmdbLoop resolver s1 ms) = Except.error s
    rw [hpo]

theorem c4_transport_failure_handling_witness :
    get_wikipedia_plot fetchErr "w" = none
    ∧ tmdbLoop errFirst ⟨dbTwo, dbTwo, 0⟩
        [⟨1, "ta", none, 0, none⟩, ⟨2, "tb", none, 0, none⟩] = .error ⟨dbTwo, dbTwo, 0⟩ :=
  ⟨c4_transport_failure_handling.1 fetchErr "w" rfl,
   c4_transport_failure_handling.2.2 errFirst ⟨dbTwo, dbTwo, 0⟩
     ⟨1, "ta", none, 0, none⟩ [⟨2, "tb", none, 0, none⟩] rfl⟩

/-- C4 counterexample: in the metadata stage a transport failure on the
first of two selected entities raises out of the batch loop: the run ends
in an exception with the store untouched, so the second entity of the same
run is never attempted. -/
theorem c4_tmdb_transport_aborts_batch :
    errTwoRaised = true
    ∧ errTwoState = ⟨dbTwo, dbTwo, 0⟩
    ∧ (tmdbSelect dbTwo 25).length = 2 :=
  ⟨by decide, by decide, by decide⟩

set_option maxRecDepth 200000 in
/-- C5 (amended): on a store with 40 unprocessed entities whose external
lookups all succeed, the metadata stage's `populate(limit = 25)` commits
results for exactly 25 entities (its printed `processed` counter is 25)
and a following run processes exactly the remaining 15, after which the
selection is empty.  The count is printed, not returned — the Python
function returns `None` (see the counterexample). -/
theorem c5_batch_cap_40_25_15 :
    firstRun40.processed = 25
    ∧ (tmdbSelect firstRun40.cur 25).length = 15
    ∧ secondRun40.processed = 15
    ∧ (tmdbSelect secondRun40.cur 25).length = 0 := by
  refine ⟨?_, ?_, ?_, ?_⟩ <;> decide

set_option maxRecDepth 200000 in
/-- C5 counterexample: `populate_tmdb_data` has no return statement, so
even on the all-found 40-entity store its return value is `None`, not the
count 25; and when one of the 25 selected entities is not found, only 24
entities get a committed result (no explicit absence is written) and the
following run selects 16, not 15. -/
theorem c5_returns_none_and_not_found_breaks_cap :
    (tmdbSelect db40 25).length = 25
    ∧ firstRun40Ret = none
    ∧ missRun40.processed = 24
    ∧ (tmdbSelect missRun40.cur 25).length = 16 := by
  refine ⟨?_, ?_, ?_, ?_⟩ <;> decide

end MovieAccuracy
